import Mathlib

/-!
Shallow embedding of the BinkOS plan-based task orchestration core,
translated from src/packages/core/src/agent/planner/graph/PlannerGraph.ts.

Modelling conventions:
- TS strings stay `String`; the optional `retry` field of a task becomes
  `Option Nat` (in JS, `task.retry > 3` is `false` when `retry` is
  `undefined`, which `Option.elim`-style matching reproduces).
- The inference gateway is an oracle: each node takes the response the
  gateway would return as a parameter, and the node result records in a
  Boolean whether the code path actually consulted the gateway
  (`gatewayInvoked`) and whether it invoked a capability handler
  (`capabilityInvoked`).
- A gateway response is either free text or a non-empty list of tool
  calls (head + rest), matching the `response?.tool_calls` truthiness
  check followed by `response.tool_calls[0]` in the source.
- A LangGraph node returns an update object covering a subset of the
  state channels. Every channel of `StateAnnotation` is declared without
  a reducer, so each channel is a LastValue channel: applying an update
  overwrites the channels the update mentions and keeps the rest
  (`applyUpdate` below). `END` is the LangGraph sentinel string.
-/

namespace BinkOS

/-- One task of a plan, from the `plans` channel of `StateAnnotation`:
tasks have a title, a status string, an optional retry count, an optional
result and an index. -/
structure PlanTask where
  title : String
  status : String
  retry : Option Nat
  result : Option String
  index : Nat
deriving Repr, DecidableEq

/-- A plan, from the `plans` channel of `StateAnnotation`. -/
structure Plan where
  title : String
  tasks : List PlanTask
  id : String
  status : String
deriving Repr, DecidableEq

/-- A chat message; only its content is ever inspected by the planner. -/
structure ChatMessage where
  content : String
deriving Repr, DecidableEq

/-- A `ToolMessage` coming back from the external executor
(`executor_response_tools` channel). -/
structure ToolMsg where
  name : String
  content : String
  tool_call_id : String
deriving Repr, DecidableEq

/-- Arguments of a gateway tool call. The planner nodes only ever read
`plan_id` and `task_indexes` from the (otherwise untyped) args object. -/
structure ToolArgs where
  plan_id : String
  task_indexes : List Nat
deriving Repr, DecidableEq

/-- One tool call of a gateway response. -/
structure ToolCall where
  name : String
  args : ToolArgs
deriving Repr, DecidableEq

/-- Inference gateway response: free text (no `tool_calls` field), or at
least one tool call (`tool_calls[0]` is `head`). -/
inductive GatewayResponse where
  | text (content : String)
  | toolCalls (head : ToolCall) (rest : List ToolCall)
deriving Repr, DecidableEq

/-- The session state: the channels of `StateAnnotation`
(PlannerGraph.ts lines 14-33). `answer` is nullable in the source
(`selectTasksNode` writes `answer: null`), hence `Option String`. -/
structure PlannerState where
  executor_input : String
  input : String
  executor_response_tools : List ToolMsg
  plans : List Plan
  active_plan_id : String
  selected_task_indexes : List Nat
  next_node : String
  answer : Option String
  chat_history : List ChatMessage
  ask_question : String
  ended_by : String
deriving Repr, DecidableEq

/-- A node's state update: the channels a node's return object mentions.
`none` means the channel is absent from the update; for `answer`,
`some none` models the explicit `answer: null` write. -/
structure PlannerUpdate where
  executor_input : Option String := none
  plans : Option (List Plan) := none
  active_plan_id : Option String := none
  selected_task_indexes : Option (List Nat) := none
  next_node : Option String := none
  answer : Option (Option String) := none
  chat_history : Option (List ChatMessage) := none
  ended_by : Option String := none
deriving Repr, DecidableEq

/-- The LangGraph `END` sentinel. -/
def END : String := "__end__"

/-- Channel merge for `StateAnnotation`: every channel is declared as a
plain `Annotation` without a reducer, i.e. a LastValue channel, so an
update overwrites exactly the channels it mentions. -/
def applyUpdate (s : PlannerState) (u : PlannerUpdate) : PlannerState :=
  { s with
    executor_input := u.executor_input.getD s.executor_input
    plans := u.plans.getD s.plans
    active_plan_id := u.active_plan_id.getD s.active_plan_id
    selected_task_indexes := u.selected_task_indexes.getD s.selected_task_indexes
    next_node := u.next_node.getD s.next_node
    answer := u.answer.getD s.answer
    chat_history := u.chat_history.getD s.chat_history
    ended_by := u.ended_by.getD s.ended_by }

/-- Applying an optional update: a node that returns `undefined` leaves
the state unchanged. -/
def applyOptUpdate (s : PlannerState) (u : Option PlannerUpdate) : PlannerState :=
  match u with
  | none => s
  | some u => applyUpdate s u

/-- The per-task termination predicate of `selectTasksNode` line 196:
`task.status === 'failed' && task.retry > 3`. In JS an absent `retry`
makes `task.retry > 3` evaluate to `false`. -/
def taskTripsPolicy (task : PlanTask) : Bool :=
  task.status == "failed" &&
    (match task.retry with
     | some r => decide (3 < r)
     | none => false)

/-- Lines 195-197: `state.plans.find(plan => plan.tasks.some(task => ...))`. -/
def planToTerminate (plans : List Plan) : Option Plan :=
  plans.find? (fun plan => plan.tasks.any taskTripsPolicy)

/-- Whether a gateway response's first tool call selects the given
action (false for a free-text response). -/
def selectsAction (gateway : GatewayResponse) (name : String) : Bool :=
  match gateway with
  | .text _ => false
  | .toolCalls head _ => head.name == name

/-- Result of running `selectTasksNode`: whether the inference gateway
was consulted, whether a capability handler was invoked, and the state
update the node returned (`none` when the TS function falls off the end
and returns `undefined`). -/
structure SelectTasksResult where
  gatewayInvoked : Bool
  capabilityInvoked : Bool
  update : Option PlannerUpdate
deriving Repr, DecidableEq

/-- `selectTasksNode` (lines 193-256). The pre-check forces termination
with `next_node: 'end'` before any gateway call; otherwise the gateway
response's first tool call is dispatched: `select_tasks` invokes the
select-tasks capability (`selectTasksCap`, producing the next executor
instruction) and records the selection, `terminate` routes to the answer
node, and anything else returns no update. -/
def selectTasksNode (state : PlannerState) (gateway : GatewayResponse)
    (selectTasksCap : ToolArgs → String) : SelectTasksResult :=
  if (planToTerminate state.plans).isSome then
    { gatewayInvoked := false, capabilityInvoked := false,
      update := some { next_node := some "end" } }
  else
    match gateway with
    | .text _ =>
        { gatewayInvoked := true, capabilityInvoked := false, update := none }
    | .toolCalls head _ =>
        if head.name == "select_tasks" then
          { gatewayInvoked := true, capabilityInvoked := true,
            update := some
              { selected_task_indexes := some head.args.task_indexes,
                active_plan_id := some head.args.plan_id,
                executor_input := some (selectTasksCap head.args),
                next_node := some END,
                answer := some none } }
        else if head.name == "terminate" then
          { gatewayInvoked := true, capabilityInvoked := false,
            update := some { next_node := some "planning_answer" } }
        else
          { gatewayInvoked := true, capabilityInvoked := false, update := none }

/-- The conditional edge out of `select_tasks` (lines 323-332):
`state.next_node === END && state.answer == null ? 'end' : 'planning_answer'`. -/
def selectTasksRouter (state : PlannerState) : String :=
  if state.next_node == END && state.answer.isNone then "end" else "planning_answer"

/-- `shouldCreateOrUpdatePlan` (lines 258-279). -/
def shouldCreateOrUpdatePlan (state : PlannerState) : String :=
  if state.plans.isEmpty then "create_plan"
  else
    let isActivePlanCompleted := state.plans.any (fun plan =>
      plan.id == state.active_plan_id && plan.status == "complete")
    let wasEndedByPlanner := state.ended_by == "planner_answer"
    if isActivePlanCompleted || wasEndedByPlanner then "create_plan" else "update_plan"

/-- What a compiler/reconciler node returns: a state update, or the
gateway's raw response passed through unchanged (the fallback path). -/
inductive NodeResponse where
  | update (u : PlannerUpdate)
  | raw (resp : GatewayResponse)
deriving Repr, DecidableEq

/-- `createPlanNode` (lines 69-124), from the gateway response on: when
the first tool call is `create_plan` the capability is invoked and its
result becomes the `plans` update; otherwise (free text, or a different
tool name, for which line 115 finds no matching tool so `tool?.invoke`
is skipped) the raw response is returned unchanged. -/
def createPlanNode (gateway : GatewayResponse)
    (createPlanCap : ToolArgs → List Plan) : NodeResponse :=
  match gateway with
  | .text s => .raw (.text s)
  | .toolCalls head rest =>
      if head.name == "create_plan" then
        .update { plans := some (createPlanCap head.args) }
      else
        .raw (.toolCalls head rest)

/-- Lines 155-160 of `updatePlanNode`: drop `executor`-named tool
messages, but only when at least one other tool message is present. -/
def filterExecutorResponseTools (responseTools : List ToolMsg) : List ToolMsg :=
  if (responseTools.filter (fun tool => tool.name != "executor")).length > 0 then
    responseTools.filter (fun tool => tool.name != "executor")
  else
    responseTools

/-- Lines 162-166: the outcome records actually handed to the gateway by
`updatePlanNode`, one message per surviving tool message. -/
def updatePlanToolMessages (state : PlannerState) : List ChatMessage :=
  (filterExecutorResponseTools state.executor_response_tools).map
    (fun m => ⟨"Response tool id: " ++ m.tool_call_id ++ "\n Tool name: " ++ m.name
        ++ " \n " ++ m.content⟩)

/-- `answerNode` (lines 281-308), from the model response on: returns a
one-element `chat_history` update, the response content as `answer`,
`next_node = END` and `ended_by = 'planner_answer'`. -/
def answerNode (_state : PlannerState) (response : ChatMessage) : PlannerUpdate :=
  { chat_history := some [response],
    answer := some (some response.content),
    next_node := some END,
    ended_by := some "planner_answer" }

/-! Helper lemmas about the termination policy. -/

/-- Characterization of the per-task policy predicate. -/
theorem taskTripsPolicy_eq_true_iff (task : PlanTask) :
    taskTripsPolicy task = true ↔
      task.status = "failed" ∧ ∃ r, task.retry = some r ∧ 3 < r := by
  unfold taskTripsPolicy
  cases h : task.retry with
  | none => simp [h]
  | some r => simp [h]

/-- The pre-check finds a plan to terminate exactly when some plan has a
failed task whose explicit retry count exceeds 3. -/
theorem planToTerminate_isSome_iff (plans : List Plan) :
    (planToTerminate plans).isSome = true ↔
      ∃ plan ∈ plans, ∃ task ∈ plan.tasks, task.status = "failed" ∧
        ∃ r, task.retry = some r ∧ 3 < r := by
  unfold planToTerminate
  simp only [List.find?_isSome, List.any_eq_true, taskTripsPolicy_eq_true_iff]

/-! Sample data used by the closed witness theorems. -/

/-- A failed task whose retry count exceeded the ceiling. -/
def tripTask : PlanTask :=
  { title := "swap", status := "failed", retry := some 4, result := none, index := 0 }

/-- A failed task sitting exactly at the ceiling. -/
def ceilingTask : PlanTask :=
  { title := "swap", status := "failed", retry := some 3, result := none, index := 0 }

/-- A failed task with no retry count recorded. -/
def noRetryTask : PlanTask :=
  { title := "swap", status := "failed", retry := none, result := none, index := 1 }

/-- An active plan containing `tripTask`. -/
def tripPlan : Plan :=
  { title := "goal", tasks := [tripTask], id := "p1", status := "active" }

/-- An active plan containing only `ceilingTask` and `noRetryTask`. -/
def ceilingPlan : Plan :=
  { title := "goal", tasks := [ceilingTask, noRetryTask], id := "p1", status := "active" }

/-- A session state builder around a given plan list. -/
def mkState (plans : List Plan) : PlannerState :=
  { executor_input := "", input := "swap 1 BNB to USDT",
    executor_response_tools := [], plans := plans, active_plan_id := "p1",
    selected_task_indexes := [], next_node := "", answer := none,
    chat_history := [], ask_question := "", ended_by := "" }

/-! Claim theorems. -/

/-- C1: for every session state in which some plan has a task with
status 'failed' and retry count greater than 3, the Task Selector node
immediately returns the termination signal (next_node = 'end') without
consulting the inference gateway and without invoking any capability. -/
theorem C1_forced_termination_no_gateway (state : PlannerState)
    (gateway : GatewayResponse) (cap : ToolArgs → String)
    (h : ∃ plan ∈ state.plans, ∃ task ∈ plan.tasks, task.status = "failed" ∧
      ∃ r, task.retry = some r ∧ 3 < r) :
    selectTasksNode state gateway cap =
      { gatewayInvoked := false, capabilityInvoked := false,
        update := some { next_node := some "end" } } := by
  have hsome : (planToTerminate state.plans).isSome = true :=
    (planToTerminate_isSome_iff state.plans).mpr h
  unfold selectTasksNode
  simp [hsome]

/-- Witness for C1 at a concrete state containing a failed task with
retry count 4. -/
theorem C1_forced_termination_no_gateway_witness :
    selectTasksNode (mkState [tripPlan]) (GatewayResponse.text "hello") (fun _ => "") =
      { gatewayInvoked := false, capabilityInvoked := false,
        update := some { next_node := some "end" } } :=
  C1_forced_termination_no_gateway (mkState [tripPlan]) (GatewayResponse.text "hello")
    (fun _ => "") (by decide)

/-- C4: a failed task whose retry count is exactly 3 does not trip the
Termination Policy: in every state where every failed task's explicit
retry count is at most 3, the pre-check finds no plan to terminate and
the Task Selector proceeds to consult the inference gateway. -/
theorem C4_ceiling_not_tripped_at_three (state : PlannerState)
    (gateway : GatewayResponse) (cap : ToolArgs → String)
    (h : ∀ plan ∈ state.plans, ∀ task ∈ plan.tasks, task.status = "failed" →
      ∀ r, task.retry = some r → r ≤ 3) :
    planToTerminate state.plans = none ∧
      (selectTasksNode state gateway cap).gatewayInvoked = true := by
  have hnone : planToTerminate state.plans = none := by
    rw [← Option.not_isSome_iff_eq_none]
    intro hsome
    obtain ⟨plan, hplan, task, htask, hfail, r, hr, hlt⟩ :=
      (planToTerminate_isSome_iff state.plans).mp hsome
    exact absurd (h plan hplan task htask hfail r hr) (by omega)
  refine ⟨hnone, ?_⟩
  unfold selectTasksNode
  rw [hnone]
  cases gateway with
  | text s => rfl
  | toolCalls head rest =>
      simp only [Option.isSome_none, Bool.false_eq_true, if_false]
      by_cases hsel : head.name == "select_tasks" <;>
        by_cases hterm : head.name == "terminate" <;> simp [hsel, hterm]

/-- Witness for C4 at a concrete state whose only failed tasks have
retry count exactly 3 or no retry count at all. -/
theorem C4_ceiling_not_tripped_at_three_witness :
    planToTerminate (mkState [ceilingPlan]).plans = none ∧
      (selectTasksNode (mkState [ceilingPlan]) (GatewayResponse.text "hello")
        (fun _ => "")).gatewayInvoked = true :=
  C4_ceiling_not_tripped_at_three (mkState [ceilingPlan]) (GatewayResponse.text "hello")
    (fun _ => "") (by decide)

/-- C9: a failed task with no recorded retry count never trips the
Termination Policy (the per-task predicate is false for it), so whenever
the pre-check forces termination some failed task carries an explicit
retry count greater than 3. -/
theorem C9_absent_retry_never_trips (plans : List Plan) (task : PlanTask)
    (habsent : task.retry = none)
    (hforced : (planToTerminate plans).isSome = true) :
    taskTripsPolicy task = false ∧
      ∃ plan ∈ plans, ∃ t ∈ plan.tasks, t.status = "failed" ∧
        ∃ r, t.retry = some r ∧ 3 < r := by
  constructor
  · unfold taskTripsPolicy
    rw [habsent]
    simp
  · exact (planToTerminate_isSome_iff plans).mp hforced

/-- Witness for C9: a concrete failed task without a retry count, next
to a plan list whose forced termination is caused by a task with retry
count 4. -/
theorem C9_absent_retry_never_trips_witness :
    taskTripsPolicy noRetryTask = false ∧
      ∃ plan ∈ [tripPlan], ∃ t ∈ plan.tasks, t.status = "failed" ∧
        ∃ r, t.retry = some r ∧ 3 < r :=
  C9_absent_retry_never_trips [tripPlan] noRetryTask (by decide) (by decide)

/-- C2: whenever the Task Selector node returned an update, the
conditional edge out of select_tasks routes to 'end' (execution
continues outside the core) exactly when the pre-check did not force
termination and the gateway's first tool call was 'select_tasks' (the
continue signal, which always records the given selection and clears the
answer); in every other update case — policy-forced termination or an
explicit 'terminate' call — it routes to 'planning_answer'. -/
theorem C2_select_tasks_routing (state : PlannerState) (gateway : GatewayResponse)
    (cap : ToolArgs → String) (u : PlannerUpdate)
    (h : (selectTasksNode state gateway cap).update = some u) :
    (selectTasksRouter (applyUpdate state u) = "end" ↔
      (planToTerminate state.plans).isSome = false ∧
        selectsAction gateway "select_tasks" = true) := by
  have hend : (("end" : String) == END) = false := by decide
  have hpa : (("planning_answer" : String) == END) = false := by decide
  have hne : ("planning_answer" : String) ≠ "end" := by decide
  by_cases hterm : (planToTerminate state.plans).isSome = true
  · unfold selectTasksNode at h
    rw [if_pos hterm] at h
    have h2 : some ({ next_node := some "end" } : PlannerUpdate) = some u := h
    obtain rfl := Option.some.inj h2
    simp [selectTasksRouter, applyUpdate, hterm, hend, hne]
  · cases gateway with
    | text s =>
        unfold selectTasksNode at h
        rw [if_neg hterm] at h
        have h2 : (none : Option PlannerUpdate) = some u := h
        exact Option.noConfusion h2
    | toolCalls head rest =>
        simp only [selectTasksNode] at h
        rw [if_neg hterm] at h
        by_cases hsel : (head.name == "select_tasks") = true
        · rw [if_pos hsel] at h
          have h2 : some ({ selected_task_indexes := some head.args.task_indexes,
                            active_plan_id := some head.args.plan_id,
                            executor_input := some (cap head.args),
                            next_node := some END,
                            answer := some none } : PlannerUpdate) = some u := h
          obtain rfl := Option.some.inj h2
          simp [selectTasksRouter, applyUpdate, selectsAction, hterm, hsel]
        · rw [if_neg hsel] at h
          by_cases htm : (head.name == "terminate") = true
          · rw [if_pos htm] at h
            have h2 : some ({ next_node := some "planning_answer" } : PlannerUpdate)
                = some u := h
            obtain rfl := Option.some.inj h2
            simp [selectTasksRouter, applyUpdate, selectsAction, hterm, hsel, hpa, hne]
          · rw [if_neg htm] at h
            have h2 : (none : Option PlannerUpdate) = some u := h
            exact Option.noConfusion h2

/-- Witness for C2 at a concrete continue case: no tripped task, a
'select_tasks' tool call, and the update the node concretely returns. -/
theorem C2_select_tasks_routing_witness :
    selectTasksRouter (applyUpdate (mkState [ceilingPlan])
        { selected_task_indexes := some [0, 2], active_plan_id := some "p1",
          executor_input := some "next", next_node := some END,
          answer := some none }) = "end" ↔
      (planToTerminate (mkState [ceilingPlan]).plans).isSome = false ∧
        selectsAction (GatewayResponse.toolCalls
          ⟨"select_tasks", ⟨"p1", [0, 2]⟩⟩ []) "select_tasks" = true :=
  C2_select_tasks_routing (mkState [ceilingPlan])
    (GatewayResponse.toolCalls ⟨"select_tasks", ⟨"p1", [0, 2]⟩⟩ [])
    (fun _ => "next")
    { selected_task_indexes := some [0, 2], active_plan_id := some "p1",
      executor_input := some "next", next_node := some END, answer := some none }
    (by decide)

/-- C3: the compile-vs-reconcile decision returns 'create_plan' exactly
when no plans exist, or some plan with the active plan's id has status
'complete', or the prior cycle ended by 'planner_answer'; in every other
state it returns 'update_plan'. In particular, ended_by =
'planner_answer' forces 'create_plan' even with an incomplete active
plan. -/
theorem C3_compile_vs_reconcile (state : PlannerState) :
    (shouldCreateOrUpdatePlan state = "create_plan" ↔
      state.plans = [] ∨
        (∃ plan ∈ state.plans, plan.id = state.active_plan_id ∧
          plan.status = "complete") ∨
        state.ended_by = "planner_answer") ∧
    (shouldCreateOrUpdatePlan state = "update_plan" ↔
      ¬(state.plans = [] ∨
        (∃ plan ∈ state.plans, plan.id = state.active_plan_id ∧
          plan.status = "complete") ∨
        state.ended_by = "planner_answer")) := by
  unfold shouldCreateOrUpdatePlan
  by_cases hempty : state.plans.isEmpty
  · rw [List.isEmpty_iff] at hempty
    simp [hempty]
  · rw [List.isEmpty_iff] at hempty
    simp only [List.isEmpty_iff, hempty, if_false]
    by_cases hc : state.plans.any (fun plan =>
        plan.id == state.active_plan_id && plan.status == "complete") ||
        state.ended_by == "planner_answer"
    · have hprop : (∃ plan ∈ state.plans, plan.id = state.active_plan_id ∧
          plan.status = "complete") ∨ state.ended_by = "planner_answer" := by
        simpa [List.any_eq_true] using hc
      simp [hc, hempty, hprop]
    · have hprop : ¬((∃ plan ∈ state.plans, plan.id = state.active_plan_id ∧
          plan.status = "complete") ∨ state.ended_by = "planner_answer") := by
        simpa [List.any_eq_true] using hc
      simp only [Bool.not_eq_true] at hc
      simp [hc, hempty, hprop]

/-- C6: on a 'select_tasks' tool call with plan id P and task indexes L
(and no policy-forced termination), the Task Selector records the
selection and the active plan id, stores the capability-computed next
instruction as executor input, clears the answer, and the turn routes to
'end' (continue). -/
theorem C6_select_tasks_updates_state (state : PlannerState)
    (cap : ToolArgs → String) (P : String) (L : List Nat) (rest : List ToolCall)
    (hterm : planToTerminate state.plans = none) :
    selectTasksNode state (GatewayResponse.toolCalls ⟨"select_tasks", ⟨P, L⟩⟩ rest) cap =
      { gatewayInvoked := true, capabilityInvoked := true,
        update := some
          { selected_task_indexes := some L, active_plan_id := some P,
            executor_input := some (cap ⟨P, L⟩), next_node := some END,
            answer := some none } } ∧
    (applyUpdate state
        { selected_task_indexes := some L, active_plan_id := some P,
          executor_input := some (cap ⟨P, L⟩), next_node := some END,
          answer := some none }).selected_task_indexes = L ∧
    (applyUpdate state
        { selected_task_indexes := some L, active_plan_id := some P,
          executor_input := some (cap ⟨P, L⟩), next_node := some END,
          answer := some none }).active_plan_id = P ∧
    (applyUpdate state
        { selected_task_indexes := some L, active_plan_id := some P,
          executor_input := some (cap ⟨P, L⟩), next_node := some END,
          answer := some none }).executor_input = cap ⟨P, L⟩ ∧
    (applyUpdate state
        { selected_task_indexes := some L, active_plan_id := some P,
          executor_input := some (cap ⟨P, L⟩), next_node := some END,
          answer := some none }).answer = none ∧
    selectTasksRouter (applyUpdate state
        { selected_task_indexes := some L, active_plan_id := some P,
          executor_input := some (cap ⟨P, L⟩), next_node := some END,
          answer := some none }) = "end" := by
  refine ⟨?_, rfl, rfl, rfl, rfl, ?_⟩
  · unfold selectTasksNode
    rw [hterm]
    rfl
  · simp [selectTasksRouter, applyUpdate]

/-- Witness for C6 at a concrete state and the concrete call of
Scenario D (plan_id "p1", task_indexes [0, 2]). -/
theorem C6_select_tasks_updates_state_witness :
    selectTasksNode (mkState [ceilingPlan])
        (GatewayResponse.toolCalls ⟨"select_tasks", ⟨"p1", [0, 2]⟩⟩ [])
        (fun a => a.plan_id) =
      { gatewayInvoked := true, capabilityInvoked := true,
        update := some
          { selected_task_indexes := some [0, 2], active_plan_id := some "p1",
            executor_input := some "p1", next_node := some END,
            answer := some none } } ∧
    (applyUpdate (mkState [ceilingPlan])
        { selected_task_indexes := some [0, 2], active_plan_id := some "p1",
          executor_input := some "p1", next_node := some END,
          answer := some none }).selected_task_indexes = [0, 2] ∧
    (applyUpdate (mkState [ceilingPlan])
        { selected_task_indexes := some [0, 2], active_plan_id := some "p1",
          executor_input := some "p1", next_node := some END,
          answer := some none }).active_plan_id = "p1" ∧
    (applyUpdate (mkState [ceilingPlan])
        { selected_task_indexes := some [0, 2], active_plan_id := some "p1",
          executor_input := some "p1", next_node := some END,
          answer := some none }).executor_input = "p1" ∧
    (applyUpdate (mkState [ceilingPlan])
        { selected_task_indexes := some [0, 2], active_plan_id := some "p1",
          executor_input := some "p1", next_node := some END,
          answer := some none }).answer = none ∧
    selectTasksRouter (applyUpdate (mkState [ceilingPlan])
        { selected_task_indexes := some [0, 2], active_plan_id := some "p1",
          executor_input := some "p1", next_node := some END,
          answer := some none }) = "end" :=
  C6_select_tasks_updates_state (mkState [ceilingPlan]) (fun a => a.plan_id)
    "p1" [0, 2] [] (by decide)

/-- C10: when the pre-check does not force termination and the gateway
response is free text or a tool call other than 'select_tasks' and
'terminate', the Task Selector returns no update at all (the TS function
returns undefined, with no raw-response fallback), so every channel —
selected_task_indexes, active_plan_id, next_node, answer — keeps its
previous value. -/
theorem C10_selector_no_update (state : PlannerState) (gateway : GatewayResponse)
    (cap : ToolArgs → String)
    (hterm : planToTerminate state.plans = none)
    (hsel : selectsAction gateway "select_tasks" = false)
    (htm : selectsAction gateway "terminate" = false) :
    (selectTasksNode state gateway cap).update = none ∧
      applyOptUpdate state (selectTasksNode state gateway cap).update = state := by
  have hupd : (selectTasksNode state gateway cap).update = none := by
    unfold selectTasksNode
    rw [hterm]
    cases gateway with
    | text s => rfl
    | toolCalls head rest =>
        have hsel2 : ¬ (head.name == "select_tasks") = true := by
          simp only [selectsAction] at hsel
          simp [hsel]
        have htm2 : ¬ (head.name == "terminate") = true := by
          simp only [selectsAction] at htm
          simp [htm]
        simp only [Option.isSome_none, Bool.false_eq_true, if_false]
        rw [if_neg hsel2, if_neg htm2]
  exact ⟨hupd, by rw [hupd]; rfl⟩

/-- Witness for C10 at a concrete state and a free-text gateway
response. -/
theorem C10_selector_no_update_witness :
    (selectTasksNode (mkState [ceilingPlan]) (GatewayResponse.text "plain text")
        (fun _ => "")).update = none ∧
      applyOptUpdate (mkState [ceilingPlan])
        (selectTasksNode (mkState [ceilingPlan]) (GatewayResponse.text "plain text")
          (fun _ => "")).update = mkState [ceilingPlan] :=
  C10_selector_no_update (mkState [ceilingPlan]) (GatewayResponse.text "plain text")
    (fun _ => "") (by decide) (by decide) (by decide)

/-- A bookkeeping-only executor tool message. -/
def executorOnlyMsg : ToolMsg :=
  { name := "executor", content := "ok", tool_call_id := "call-1" }

/-- A substantive (non-executor) tool message. -/
def swapResultMsg : ToolMsg :=
  { name := "swap", content := "swapped", tool_call_id := "call-2" }

/-- C5 counterexample: on a list containing only an 'executor'-named
tool message, the Plan Reconciler does not exclude it — the list handed
on is not the executor-filtered list, so the exclusion does not happen
for every list of executor response tools. -/
theorem C5_filter_counterexample :
    filterExecutorResponseTools [executorOnlyMsg] ≠
      List.filter (fun tool => tool.name != "executor") [executorOnlyMsg] := by
  decide

/-- C5 amended: the Plan Reconciler excludes the 'executor'-named
bookkeeping messages exactly when at least one other outcome record is
present; when every record is an 'executor' message the list is passed
on unchanged. -/
theorem C5_filter_amended (responseTools : List ToolMsg) :
    ((∃ tool ∈ responseTools, tool.name ≠ "executor") →
      filterExecutorResponseTools responseTools =
        List.filter (fun tool => tool.name != "executor") responseTools) ∧
    ((∀ tool ∈ responseTools, tool.name = "executor") →
      filterExecutorResponseTools responseTools = responseTools) := by
  constructor
  · intro hex
    unfold filterExecutorResponseTools
    obtain ⟨tool, hmem, hname⟩ := hex
    have hkeep : tool ∈ List.filter (fun t => t.name != "executor") responseTools := by
      rw [List.mem_filter]
      exact ⟨hmem, by simpa using hname⟩
    rw [if_pos]
    exact List.length_pos.mpr (List.ne_nil_of_mem hkeep)
  · intro hall
    unfold filterExecutorResponseTools
    have hnil : List.filter (fun t => t.name != "executor") responseTools = [] := by
      rw [List.filter_eq_nil_iff]
      intro t hmem
      simpa using hall t hmem
    rw [hnil]
    simp

/-- Witness for C5 amended at a concrete two-element list holding one
executor message and one substantive message. -/
theorem C5_filter_amended_witness :
    ((∃ tool ∈ [executorOnlyMsg, swapResultMsg], tool.name ≠ "executor") →
      filterExecutorResponseTools [executorOnlyMsg, swapResultMsg] =
        List.filter (fun tool => tool.name != "executor")
          [executorOnlyMsg, swapResultMsg]) ∧
    ((∀ tool ∈ [executorOnlyMsg, swapResultMsg], tool.name = "executor") →
      filterExecutorResponseTools [executorOnlyMsg, swapResultMsg] =
        [executorOnlyMsg, swapResultMsg]) :=
  C5_filter_amended [executorOnlyMsg, swapResultMsg]

/-- C7: whenever the inference gateway does not select the 'create_plan'
action (free text, or a first tool call with another name), the Plan
Compiler node returns the gateway's raw response unchanged. -/
theorem C7_create_plan_fallback (gateway : GatewayResponse)
    (createPlanCap : ToolArgs → List Plan)
    (h : selectsAction gateway "create_plan" = false) :
    createPlanNode gateway createPlanCap = NodeResponse.raw gateway := by
  cases gateway with
  | text s => rfl
  | toolCalls head rest =>
      have hname : ¬ (head.name == "create_plan") = true := by
        simp only [selectsAction] at h
        simp [h]
      simp only [createPlanNode]
      rw [if_neg hname]

/-- Witness for C7 at a free-text gateway response. -/
theorem C7_create_plan_fallback_witness :
    createPlanNode (GatewayResponse.text "I cannot plan this") (fun _ => []) =
      NodeResponse.raw (GatewayResponse.text "I cannot plan this") :=
  C7_create_plan_fallback (GatewayResponse.text "I cannot plan this") (fun _ => [])
    (by decide)

/-- A state with a non-empty prior chat history. -/
def historyState : PlannerState :=
  { mkState [ceilingPlan] with chat_history := [⟨"earlier user turn"⟩] }

/-- The final response used in the C8 theorems. -/
def finalResponse : ChatMessage := ⟨"All tasks done."⟩

/-- C8 counterexample: at a concrete state whose chat history already
holds one message, applying the Answer Synthesizer's update does not
yield the prior history with the response appended — the prior entry is
not preserved, because every `StateAnnotation` channel (chat_history
included) overwrites on update. -/
theorem C8_answer_counterexample :
    (applyUpdate historyState (answerNode historyState finalResponse)).chat_history ≠
      historyState.chat_history ++ [finalResponse] := by
  decide

/-- C8 amended: for every input state, the Answer Synthesizer's update
replaces the chat history with the one-element list holding its
generated response (prior entries are dropped, since the chat_history
channel has no appending reducer), sets the answer to the response
content, and marks ended_by = 'planner_answer'. -/
theorem C8_answer_replaces_history (state : PlannerState) (response : ChatMessage) :
    (applyUpdate state (answerNode state response)).chat_history = [response] ∧
      (applyUpdate state (answerNode state response)).answer = some response.content ∧
      (applyUpdate state (answerNode state response)).ended_by = "planner_answer" :=
  ⟨rfl, rfl, rfl⟩

end BinkOS
